import Mathlib

/-!
Verification of the RustPython object-model core (code objects, dictionaries,
iterators) against its natural-language specification.

The Rust source embedded here consists of `vm/src/builtins/dict.rs`,
`vm/src/builtins/iter.rs`, `vm/src/builtins/map.rs` and
`vm/src/builtins/code.rs`.  The dictionary internals (`dict_inner::Dict`,
`dict_inner::DictSize`) and a few standard-library collaborators live outside
these files; those are modelled from the specification and are marked as such
in their doc comments.
-/

set_option autoImplicit false

namespace RPy

/-- The iterator-protocol outcome (`protocol::PyIterReturn`): either a yielded
value or a StopIteration signal optionally carrying a value. -/
inductive PyIterReturn (R : Type) where
  | Return (r : R)
  | StopIteration (v : Option R)
  deriving DecidableEq, Repr

/-- The error taxonomy surfaced by the embedded operations: key errors carrying
the offending key, key errors carrying a fixed message (popitem on empty),
runtime errors and type errors carrying their message. -/
inductive PyErr (K : Type) where
  | keyError (k : K)
  | keyErrorMsg (msg : String)
  | runtimeError (msg : String)
  | typeError (msg : String)
  | valueError (msg : String)
  deriving DecidableEq, Repr

/-- Modelled from the spec: `dict_inner::DictSize`, the "size signature" of a
dictionary — its current entry count plus a generation/version marker that
changes whenever insert/delete mutates the structure (spec section 3,
"Size signature"). `dict_inner` is not part of the embedded source files. -/
structure DictSize where
  entries_size : Nat
  version : Nat
  deriving DecidableEq, Repr

/-- Modelled from the spec: `dict_inner::Dict`, an insertion-ordered key-value
mapping. The spec (section 3, "Dictionary") describes it as an ordered
sequence of (key, value) entries whose iteration order is the order of first
insertion among currently-present keys, plus a size signature. `dict_inner`
is not part of the embedded source files. -/
structure Dict (K V : Type) where
  entries : List (K × V)
  version : Nat
  deriving DecidableEq, Repr

namespace Dict

variable {K V : Type}

/-- The empty dictionary. -/
def empty : Dict K V := ⟨[], 0⟩

/-- Modelled from the spec: lookup by key (`dict_inner::Dict::get`), returning
the stored value of the first (unique) entry whose key matches. -/
def get [DecidableEq K] (d : Dict K V) (k : K) : Option V :=
  (d.entries.find? (fun e => decide (e.1 = k))).map (·.2)

/-- Modelled from the spec: key-membership test (`dict_inner::Dict::contains`). -/
def contains [DecidableEq K] (d : Dict K V) (k : K) : Bool :=
  (d.get k).isSome

/-- Modelled from the spec: `dict_inner::Dict::insert` — if the key is present
the value is overwritten in place and the insertion order is unchanged; if
absent the entry is appended at the end; the size signature is bumped. -/
def insert [DecidableEq K] (d : Dict K V) (k : K) (v : V) : Dict K V :=
  if d.contains k then
    { entries := d.entries.map (fun e => if e.1 = k then (e.1, v) else e)
      version := d.version + 1 }
  else
    { entries := d.entries ++ [(k, v)], version := d.version + 1 }

/-- Modelled from the spec: `dict_inner::Dict::pop_back` — removes and returns
the last-inserted-surviving (key, value) pair, i.e. the last entry of the
insertion-ordered entry list; the size signature is bumped. -/
def pop_back (d : Dict K V) : Option ((K × V) × Dict K V) :=
  match d.entries.getLast? with
  | some kv => some (kv, { entries := d.entries.dropLast, version := d.version + 1 })
  | none => none

/-- Modelled from the spec: the current size signature
(`dict_inner::Dict::size`). -/
def size (d : Dict K V) : DictSize :=
  ⟨d.entries.length, d.version⟩

/-- Modelled from the spec: `dict_inner::Dict::has_changed_size` — compares
the live size signature against a previously captured one. -/
def has_changed_size (d : Dict K V) (old : DictSize) : Bool :=
  decide (d.size ≠ old)

/-- Modelled from the spec: `dict_inner::Dict::next_entry` — the entry at the
given position of the insertion-ordered entry list together with the position
of the following entry, or `none` past the end. -/
def next_entry (d : Dict K V) (position : Nat) : Option (Nat × K × V) :=
  (d.entries[position]?).map (fun kv => (position + 1, kv.1, kv.2))

/-- Modelled from the spec: `dict_inner::Dict::prev_entry` — the entry at the
given position together with the position of the preceding entry (saturating
at zero), or `none` past the end. -/
def prev_entry (d : Dict K V) (position : Nat) : Option (Nat × K × V) :=
  (d.entries[position]?).map (fun kv => (position - 1, kv.1, kv.2))

end Dict

/-- Embeds `PyDict::popitem` (dict.rs): pops the last entry via
`dict_inner::Dict::pop_back`, failing with a key error carrying the message
"popitem(): dictionary is empty" when the dictionary is empty. -/
def popitem {K V : Type} (d : Dict K V) : Except (PyErr K) ((K × V) × Dict K V) :=
  match d.pop_back with
  | some r => Except.ok r
  | none => Except.error (PyErr.keyErrorMsg "popitem(): dictionary is empty")

/-- Embeds `IterStatus` (iter.rs): marks the status of an iterator — either
still active, holding the iterated target, or permanently exhausted. -/
inductive IterStatus (T : Type) where
  | Active (t : T)
  | Exhausted
  deriving Repr

/-- Embeds `PositionIterInternal` (iter.rs): the shared iteration-state
machine, a status plus a cursor position. -/
structure PositionIterInternal (T : Type) where
  status : IterStatus T
  position : Nat
  deriving Repr

/-- Embeds `PositionIterInternal::_next` (iter.rs): when active, apply the
element-fetching function at the current position; on a successful yield apply
the position-updating operation, otherwise become exhausted; when exhausted,
report StopIteration without touching the state. -/
def internalStep {T R E : Type} (f : T → Nat → Except E (PyIterReturn R))
    (op : PositionIterInternal T → PositionIterInternal T)
    (self : PositionIterInternal T) :
    Except E (PyIterReturn R) × PositionIterInternal T :=
  match self.status with
  | IterStatus.Active obj =>
    let ret := f obj self.position
    match ret with
    | Except.ok (PyIterReturn.Return _) => (ret, op self)
    | _ => (ret, { self with status := IterStatus.Exhausted })
  | IterStatus.Exhausted => (Except.ok (PyIterReturn.StopIteration none), self)

/-- Embeds `PositionIterInternal::next` (iter.rs): a forward step, where a
successful yield increments the cursor. -/
def internalNext {T R E : Type} (f : T → Nat → Except E (PyIterReturn R))
    (self : PositionIterInternal T) :
    Except E (PyIterReturn R) × PositionIterInternal T :=
  internalStep f (fun z => { z with position := z.position + 1 }) self

/-- Embeds `PositionIterInternal::rev_next` (iter.rs): a reverse step, where a
successful yield decrements the cursor, exhausting the iterator if the cursor
was already zero. -/
def internalRevNext {T R E : Type} (f : T → Nat → Except E (PyIterReturn R))
    (self : PositionIterInternal T) :
    Except E (PyIterReturn R) × PositionIterInternal T :=
  internalStep f
    (fun z =>
      if z.position = 0 then { z with status := IterStatus.Exhausted }
      else { z with position := z.position - 1 })
    self

/-- The state after `n` forward steps of the shared iteration-state machine. -/
def internalNextN {T R E : Type} (f : T → Nat → Except E (PyIterReturn R))
    (n : Nat) (self : PositionIterInternal T) : PositionIterInternal T :=
  match n with
  | 0 => self
  | m + 1 => internalNextN f m (internalNext f self).2

/-- Embeds the state of a dictionary-view iterator produced by the `dict_view!`
macro (dict.rs): the size signature captured at construction plus the shared
iteration state over the dictionary. The projection (keys, values or items) is
supplied separately as a result function, exactly as the macro is instantiated
once per projection. -/
structure DictViewIter (K V : Type) where
  size : DictSize
  internal : PositionIterInternal (Dict K V)
  deriving Repr

/-- The iterator with its status forced to Exhausted (cursor unchanged). -/
def DictViewIter.exhaust {K V : Type} (it : DictViewIter K V) : DictViewIter K V :=
  { it with internal := { it.internal with status := IterStatus.Exhausted } }

/-- Embeds the forward view-iterator constructor of `dict_view!` (dict.rs):
captures the dictionary's size signature and starts the cursor at zero. -/
def dictViewIterNew {K V : Type} (dict : Dict K V) : DictViewIter K V :=
  ⟨dict.size, ⟨IterStatus.Active dict, 0⟩⟩

/-- Embeds the reverse view-iterator constructor of `dict_view!` (dict.rs):
captures the size signature and starts the cursor at `entries_size - 1`
(saturating at zero). -/
def dictViewRevIterNew {K V : Type} (dict : Dict K V) : DictViewIter K V :=
  ⟨dict.size, ⟨IterStatus.Active dict, dict.size.entries_size - 1⟩⟩

/-- Embeds `IterNext::next` of the forward view iterators generated by
`dict_view!` (dict.rs): when active, first compare the dictionary's live size
signature with the captured one — on mismatch become exhausted and fail with a
runtime error "dictionary changed size during iteration"; otherwise fetch the
next entry, yielding its projection, or become exhausted with StopIteration at
the end; when exhausted, report StopIteration with the state untouched. The
`Active` payload holds the dictionary as seen through the shared reference at
the time of the call. -/
def dictViewNext {K V R : Type} (resultFn : K → V → R) (it : DictViewIter K V) :
    Except (PyErr K) (PyIterReturn R) × DictViewIter K V :=
  match it.internal.status with
  | IterStatus.Active dict =>
    if dict.has_changed_size it.size then
      (Except.error (PyErr.runtimeError "dictionary changed size during iteration"),
       it.exhaust)
    else
      match dict.next_entry it.internal.position with
      | some (position, k, v) =>
          (Except.ok (PyIterReturn.Return (resultFn k v)),
           { it with internal := { status := IterStatus.Active dict, position := position } })
      | none => (Except.ok (PyIterReturn.StopIteration none), it.exhaust)
  | IterStatus.Exhausted => (Except.ok (PyIterReturn.StopIteration none), it)

/-- Embeds `IterNext::next` of the reverse view iterators generated by
`dict_view!` (dict.rs): same mutation check, then fetch the entry at the
cursor moving backwards; if the returned position equals the current one the
iterator becomes exhausted after yielding. -/
def dictViewRevNext {K V R : Type} (resultFn : K → V → R) (it : DictViewIter K V) :
    Except (PyErr K) (PyIterReturn R) × DictViewIter K V :=
  match it.internal.status with
  | IterStatus.Active dict =>
    if dict.has_changed_size it.size then
      (Except.error (PyErr.runtimeError "dictionary changed size during iteration"),
       it.exhaust)
    else
      match dict.prev_entry it.internal.position with
      | some (position, k, v) =>
          if it.internal.position = position then
            (Except.ok (PyIterReturn.Return (resultFn k v)), it.exhaust)
          else
            (Except.ok (PyIterReturn.Return (resultFn k v)),
             { it with internal := { status := IterStatus.Active dict, position := position } })
      | none => (Except.ok (PyIterReturn.StopIteration none), it.exhaust)
  | IterStatus.Exhausted => (Except.ok (PyIterReturn.StopIteration none), it)

/-- The state after `n` forward steps of a dictionary-view iterator. -/
def dictViewNextN {K V R : Type} (resultFn : K → V → R) (n : Nat)
    (it : DictViewIter K V) : DictViewIter K V :=
  match n with
  | 0 => it
  | m + 1 => dictViewNextN resultFn m (dictViewNext resultFn it).2

/-- The state after `n` reverse steps of a dictionary-view iterator. -/
def dictViewRevNextN {K V R : Type} (resultFn : K → V → R) (n : Nat)
    (it : DictViewIter K V) : DictViewIter K V :=
  match n with
  | 0 => it
  | m + 1 => dictViewRevNextN resultFn m (dictViewRevNext resultFn it).2

/-- A dictionary together with the optional subclass-supplied missing-key hook
(the `__missing__` method looked up by `Py<PyDict>::missing_opt`, dict.rs).
The hook, when present, is an external callable and may itself fail. -/
structure DictWithHook (K V : Type) where
  dict : Dict K V
  missingHook : Option (K → Except (PyErr K) V)

/-- Embeds `Py<PyDict>::inner_getitem` (dict.rs:548-561): look the key up in
the entries; on a hit return the value; on a miss invoke the missing-key hook
when one exists; otherwise fail with a key error carrying the key. -/
def inner_getitem {K V : Type} [DecidableEq K] (d : DictWithHook K V) (k : K) :
    Except (PyErr K) V :=
  match d.dict.get k with
  | some value => Except.ok value
  | none =>
    match d.missingHook with
    | some hook => hook k
    | none => Except.error (PyErr.keyError k)

/-- Embeds `PyDict::get` (dict.rs:242-253): look the key up directly in the
entries; on a miss return the supplied default, or the none value when no
default was supplied (`default.unwrap_or_none`). The missing-key hook is not
part of this computation. -/
def dict_get {K V : Type} [DecidableEq K] (d : DictWithHook K V) (k : K)
    (default : Option V) (noneVal : V) : V :=
  match d.dict.get k with
  | some value => value
  | none => default.getD noneVal

/-- A needle object as seen by the items-view containment check: either a
tuple of objects or a non-tuple object (whose payload is irrelevant to the
check, which only downcasts to tuple). -/
inductive DictNeedle (O : Type) where
  | tuple (elems : List O)
  | nonTuple
  deriving DecidableEq, Repr

/-- Embeds `AsSequence for PyDictItems`' contains slot (dict.rs:1226-1252):
non-tuples and tuples of length other than two answer `false`; for a pair
(k, v) the dictionary is consulted for k and, on a hit, the stored value is
compared to v by identity (`is`, modelled as equality of the model values) or
by the value-equality relation (`vm.identical_or_equal`). The item fetch goes
through `__getitem__`, i.e. `inner_getitem`. -/
def dictItemsContains {O : Type} [DecidableEq O] (valueEq : O → O → Bool)
    (d : DictWithHook O O) (needle : DictNeedle O) : Except (PyErr O) Bool :=
  match needle with
  | DictNeedle.nonTuple => Except.ok false
  | DictNeedle.tuple [k, v] =>
    if d.dict.contains k then
      match inner_getitem d k with
      | Except.ok found => Except.ok (decide (found = v) || valueEq found v)
      | Except.error e => Except.error e
    else Except.ok false
  | DictNeedle.tuple _ => Except.ok false

/-- Embeds `PyCallableIterator` (iter.rs): a sentinel value plus the iterator
status holding the wrapped zero-argument callable. The callable is external
and stateful; it is modelled as the stream of its successive return values
(`callable n` is the result of its n-th invocation) and the `calls` field
counts the invocations performed so far, so that "the callable is not
re-invoked" is observable as `calls` staying unchanged. -/
structure PyCallableIterator (V : Type) where
  sentinel : V
  status : IterStatus (Nat → V)
  calls : Nat

/-- Embeds `IterNext for PyCallableIterator` (iter.rs:267-284): when active,
invoke the callable; if the result is value-equal to the sentinel
(`vm.bool_eq`, modelled by the supplied equality relation) the iterator
becomes exhausted and reports StopIteration, otherwise the result is yielded;
when exhausted, report StopIteration without invoking the callable. -/
def callableIterNext {V : Type} (eqFn : V → V → Bool) (it : PyCallableIterator V) :
    PyIterReturn V × PyCallableIterator V :=
  match it.status with
  | IterStatus.Active callable =>
    let ret := callable it.calls
    if eqFn ret it.sentinel then
      (PyIterReturn.StopIteration none,
       { it with status := IterStatus.Exhausted, calls := it.calls + 1 })
    else
      (PyIterReturn.Return ret, { it with calls := it.calls + 1 })
  | IterStatus.Exhausted => (PyIterReturn.StopIteration none, it)

/-- The state after `n` steps of a callable-sentinel iterator. -/
def callableIterNextN {V : Type} (eqFn : V → V → Bool) (n : Nat)
    (it : PyCallableIterator V) : PyCallableIterator V :=
  match n with
  | 0 => it
  | m + 1 => callableIterNextN eqFn m (callableIterNext eqFn it).2

/-- The outcome of one step of an iterator as seen by a consumer: a yielded
value, a StopIteration signal, or a propagated error. -/
inductive StepOut (B : Type) where
  | Yield (b : B)
  | Stop
  | Failed (msg : String)
  deriving DecidableEq, Repr

/-- Embeds the source-advancing loop of `IterNext for PyMap` (map.rs:58-68):
advance the sources in order, collecting one value from each; as soon as one
source is exhausted the loop stops (later sources are not advanced that step).
Sources are modelled as pure list iterators; the function returns the
collected values (or `none` if some source was exhausted) together with the
sources' advanced states. -/
def advanceAll {A : Type} : List (List A) → Option (List A) × List (List A)
  | [] => (some [], [])
  | [] :: rest => (none, [] :: rest)
  | (x :: xs) :: rest =>
    match advanceAll rest with
    | (some vals, rests) => (some (x :: vals), xs :: rests)
    | (none, rests) => (none, xs :: rests)

/-- The state of a `PyMap` iterator over pure list sources: the sources'
remaining elements, plus a count of transform invocations so far (the
transform is external and modelled as the stream of its per-invocation
outcomes). -/
structure MapState (A B : Type) where
  sources : List (List A)
  calls : Nat
  deriving DecidableEq, Repr

/-- Embeds `IterNext for PyMap` (map.rs:58-68): advance all sources; if any is
exhausted the step reports StopIteration (the transform is not invoked);
otherwise the transform is invoked on the collected values and its outcome —
its value, its error, or a StopIteration it raises itself
(`PyIterReturn::from_pyresult`) — becomes the step's outcome. -/
def pyMapNext {A B : Type} (mapper : Nat → List A → StepOut B) (s : MapState A B) :
    StepOut B × MapState A B :=
  match advanceAll s.sources with
  | (none, srcs) => (StepOut.Stop, { s with sources := srcs })
  | (some vals, srcs) => (mapper s.calls vals, { sources := srcs, calls := s.calls + 1 })

/-- The state after `n` steps of a `PyMap` iterator. -/
def pyMapNextN {A B : Type} (mapper : Nat → List A → StepOut B) (n : Nat)
    (s : MapState A B) : MapState A B :=
  match n with
  | 0 => s
  | m + 1 => pyMapNextN mapper m (pyMapNext mapper s).2

/-- Embeds `PyMap::__length_hint__` (map.rs:39-46): fold over the sources'
individual length hints, keeping the running maximum, starting from zero. -/
def pyMapLengthHint (hints : List Nat) : Nat :=
  hints.foldl max 0

/-- Embeds `bytecode::CodeObject` as used by code.rs, parameterized by the
type of constant-pool literals. Instruction units and location entries are
opaque payloads; name tables are strings (interned strings in the source);
`first_line_number` is the optional 1-indexed first line. -/
structure CodeObject (C : Type) where
  flags : Nat
  posonlyarg_count : Nat
  arg_count : Nat
  kwonlyarg_count : Nat
  source_path : String
  first_line_number : Option Nat
  obj_name : String
  qualname : String
  max_stackdepth : Nat
  instructions : List Nat
  locations : List Nat
  constants : List C
  names : List String
  varnames : List String
  cellvars : List String
  freevars : List String
  cell2arg : Option (List Int)
  deriving DecidableEq, Repr

/-- Embeds `ReplaceArgs` (code.rs:21-43): the named, optional overrides
accepted by `PyCode::replace`. -/
structure ReplaceArgs (C : Type) where
  co_posonlyargcount : Option Nat
  co_argcount : Option Nat
  co_kwonlyargcount : Option Nat
  co_filename : Option String
  co_firstlineno : Option Nat
  co_consts : Option (List C)
  co_name : Option String
  co_names : Option (List String)
  co_flags : Option Nat
  co_varnames : Option (List String)
  deriving DecidableEq, Repr

/-- The empty override set, i.e. `replace()` with no arguments. -/
def emptyReplaceArgs {C : Type} : ReplaceArgs C :=
  ⟨none, none, none, none, none, none, none, none, none, none⟩

/-- Embeds `OneIndexed::new` (rustpython_compiler_core, used at code.rs:371):
a 1-indexed line number is `none` when the raw value is zero. -/
def oneIndexedNew (n : Nat) : Option Nat :=
  if n = 0 then none else some n

/-- Modelled from the spec: `CodeFlags::from_bits_truncate` lives outside the
embedded source files; the spec (section 6) describes the flags field as a
16-bit bitset, so truncation keeps the low 16 bits. -/
def codeFlagsFromBitsTruncate (bits : Nat) : Nat :=
  bits % 65536

/-- Embeds `PyCode::replace` (code.rs:354-439): construct a new code object
where each supplied override replaces the receiver's field and every other
field is copied from the receiver; the qualified name, max stack depth,
instruction stream, location table, cell-variable and free-variable tables and
the cell-to-arg mapping are copied unconditionally. -/
def code_replace {C : Type} (c : CodeObject C) (args : ReplaceArgs C) : CodeObject C :=
  { flags := codeFlagsFromBitsTruncate (args.co_flags.getD c.flags)
    posonlyarg_count := args.co_posonlyargcount.getD c.posonlyarg_count
    arg_count := args.co_argcount.getD c.arg_count
    kwonlyarg_count := args.co_kwonlyargcount.getD c.kwonlyarg_count
    source_path := args.co_filename.getD c.source_path
    first_line_number :=
      match args.co_firstlineno with
      | some n => oneIndexedNew n
      | none => c.first_line_number
    obj_name := args.co_name.getD c.obj_name
    qualname := c.qualname
    max_stackdepth := c.max_stackdepth
    instructions := c.instructions
    locations := c.locations
    constants := args.co_consts.getD c.constants
    names := args.co_names.getD c.names
    varnames := args.co_varnames.getD c.varnames
    cellvars := c.cellvars
    freevars := c.freevars
    cell2arg := c.cell2arg }

/-- Embeds the `co_firstlineno` getter (code.rs:282-284):
`first_line_number.map_or(0, ...)`. -/
def co_firstlineno {C : Type} (c : CodeObject C) : Nat :=
  c.first_line_number.getD 0

/-- Formats a natural number the way Rust's alternate hexadecimal formatting
does for an address: a `0x` in front of lowercase hex digits. -/
def formatHex (n : Nat) : String :=
  "0x" ++ String.mk (Nat.toDigits 16 n)

/-- Modelled from the spec: the repr-quoting of the source path — the claim's
path-with-quotes placeholder, Rust's Debug formatting of a string, which is
external library code — quotes the string and backslash-escapes quotes,
backslashes and common control characters. -/
def rustCharEscape (ch : Char) : String :=
  if ch = '"' then "\\\""
  else if ch = '\\' then "\\\\"
  else if ch = '\n' then "\\n"
  else if ch = '\t' then "\\t"
  else if ch = '\r' then "\\r"
  else String.singleton ch

/-- Modelled from the spec: Debug-quoting of a whole string. -/
def rustStrDebug (s : String) : String :=
  "\"" ++ String.join (s.toList.map rustCharEscape) ++ "\""

/-- The line-number component of the rendered descriptor:
`first_line_number.map_or(-1, ...)` (code.rs:232). -/
def reprLine {C : Type} (c : CodeObject C) : Int :=
  (c.first_line_number.map Int.ofNat).getD (-1)

/-- Embeds `Representable::repr_str for PyCode` (code.rs:223-235): the format
string is `<code object NAME at HEX file QUOTEDPATH, line LINE>` — note that
there is no comma between the identity and the word `file`. The object
identity (`zelf.get_id()`) is passed in as a number. -/
def code_repr_str {C : Type} (c : CodeObject C) (id : Nat) : String :=
  "<code object " ++ c.obj_name ++ " at " ++ formatHex id ++ " file " ++
    rustStrDebug c.source_path ++ ", line " ++ toString (reprLine c) ++ ">"

/-- The rendered descriptor exactly as the claim words it: with a comma
between the identity and the word `file`. Stated from the spec for comparison
with `code_repr_str`. -/
def specClaimedDescriptor {C : Type} (c : CodeObject C) (id : Nat) : String :=
  "<code object " ++ c.obj_name ++ " at " ++ formatHex id ++ ", file " ++
    rustStrDebug c.source_path ++ ", line " ++ toString (reprLine c) ++ ">"

/-- The rendered descriptor as the amended claim words it: identical to the
claimed format except that no comma separates the identity from the word
`file`. -/
def specAmendedDescriptor {C : Type} (c : CodeObject C) (id : Nat) : String :=
  "<code object " ++ c.obj_name ++ " at " ++ formatHex id ++ " file " ++
    rustStrDebug c.source_path ++ ", line " ++ toString (reprLine c) ++ ">"

end RPy

namespace RPy

/-- Claim C4: for every non-empty dictionary, `popitem` removes and returns the
last-inserted surviving (key, value) pair (LIFO order; on a dictionary built by
inserting a:1, b:2, c:3 it returns (c,3) and a second call returns (b,2)); on an
empty dictionary it fails with a key error carrying the message
"popitem(): dictionary is empty". -/
theorem claim_C4_popitem {K V : Type} (d : Dict K V) (l : List (K × V)) (k : K) (v : V)
    (hne : d.entries = l ++ [(k, v)]) :
    (popitem d = Except.ok ((k, v), ⟨l, d.version + 1⟩)) ∧
    (∀ d0 : Dict K V, d0.entries = [] →
      popitem d0 = Except.error (PyErr.keyErrorMsg "popitem(): dictionary is empty")) ∧
    (let d3 : Dict String Nat :=
      ((Dict.empty.insert "a" 1).insert "b" 2).insert "c" 3
     popitem d3 = Except.ok (("c", 3), ⟨[("a", 1), ("b", 2)], 4⟩) ∧
     popitem (⟨[("a", 1), ("b", 2)], 4⟩ : Dict String Nat) =
       Except.ok (("b", 2), ⟨[("a", 1)], 5⟩)) := by
  refine ⟨?_, ?_, ?_⟩
  · simp [popitem, Dict.pop_back, hne]
  · intro d0 h0
    simp [popitem, Dict.pop_back, h0]
  · constructor <;> rfl

/-- Witness for claim C4 at a concrete dictionary. -/
theorem claim_C4_witness :
    popitem (⟨[((2 : Nat), (20 : Nat)), (3, 30)], 7⟩ : Dict Nat Nat) =
      Except.ok ((3, 30), ⟨[(2, 20)], 8⟩) :=
  (claim_C4_popitem ⟨[(2, 20), (3, 30)], 7⟩ [(2, 20)] 3 30 rfl).1

/-- Claim C1: for every dictionary-view iterator (any projection — keys,
values or items — forward or reverse): if the underlying dictionary's size
signature differs from the signature captured at construction while the
iterator is still active, the next advancement fails with the runtime error
"dictionary changed size during iteration" and exhausts the iterator; and from
any exhausted view-iterator state, every subsequent advancement reports plain
StopIteration rather than an error. -/
theorem claim_C1_view_mutation {K V R : Type} (resultFn : K → V → R)
    (it : DictViewIter K V) (d : Dict K V)
    (hact : it.internal.status = IterStatus.Active d)
    (hsz : d.size ≠ it.size) :
    (dictViewNext resultFn it =
       (Except.error (PyErr.runtimeError "dictionary changed size during iteration"),
        it.exhaust) ∧
     dictViewRevNext resultFn it =
       (Except.error (PyErr.runtimeError "dictionary changed size during iteration"),
        it.exhaust)) ∧
    (∀ it2 : DictViewIter K V, it2.internal.status = IterStatus.Exhausted →
      dictViewNext resultFn it2 = (Except.ok (PyIterReturn.StopIteration none), it2) ∧
      dictViewRevNext resultFn it2 = (Except.ok (PyIterReturn.StopIteration none), it2) ∧
      (∀ n : Nat,
        (dictViewNext resultFn (dictViewNextN resultFn n it2)).1 =
          Except.ok (PyIterReturn.StopIteration none) ∧
        (dictViewRevNext resultFn (dictViewRevNextN resultFn n it2)).1 =
          Except.ok (PyIterReturn.StopIteration none))) := by
  have habs : ∀ it2 : DictViewIter K V, it2.internal.status = IterStatus.Exhausted →
      dictViewNext resultFn it2 = (Except.ok (PyIterReturn.StopIteration none), it2) ∧
      dictViewRevNext resultFn it2 = (Except.ok (PyIterReturn.StopIteration none), it2) := by
    intro it2 h2
    constructor
    · simp [dictViewNext, h2]
    · simp [dictViewRevNext, h2]
  refine ⟨⟨?_, ?_⟩, ?_⟩
  · simp [dictViewNext, hact, Dict.has_changed_size, hsz]
  · simp [dictViewRevNext, hact, Dict.has_changed_size, hsz]
  · intro it2 h2
    have hfwdN : ∀ n : Nat, dictViewNextN resultFn n it2 = it2 := by
      intro n
      induction n with
      | zero => rfl
      | succ m ih =>
          show dictViewNextN resultFn m (dictViewNext resultFn it2).2 = it2
          rw [(habs it2 h2).1]
          exact ih
    have hrevN : ∀ n : Nat, dictViewRevNextN resultFn n it2 = it2 := by
      intro n
      induction n with
      | zero => rfl
      | succ m ih =>
          show dictViewRevNextN resultFn m (dictViewRevNext resultFn it2).2 = it2
          rw [(habs it2 h2).2]
          exact ih
    refine ⟨(habs it2 h2).1, (habs it2 h2).2, ?_⟩
    intro n
    rw [hfwdN n, hrevN n, (habs it2 h2).1, (habs it2 h2).2]
    exact ⟨rfl, rfl⟩

/-- Witness for claim C1 at a concrete mutated dictionary and iterator. -/
theorem claim_C1_witness :
    (⟨[((1 : Nat), (10 : Nat))], 1⟩ : Dict Nat Nat).size ≠ (⟨0, 0⟩ : DictSize) ∧
    dictViewNext (fun (k : Nat) (_ : Nat) => k)
        (⟨⟨0, 0⟩, ⟨IterStatus.Active ⟨[(1, 10)], 1⟩, 0⟩⟩ : DictViewIter Nat Nat) =
      (Except.error (PyErr.runtimeError "dictionary changed size during iteration"),
       ⟨⟨0, 0⟩, ⟨IterStatus.Exhausted, 0⟩⟩) :=
  ⟨by decide,
   (claim_C1_view_mutation (fun (k : Nat) (_ : Nat) => k)
      ⟨⟨0, 0⟩, ⟨IterStatus.Active ⟨[(1, 10)], 1⟩, 0⟩⟩ ⟨[(1, 10)], 1⟩ rfl
      (by decide)).1.1⟩

/-- Claim C7: once a position iterator's status is Exhausted — whether the
shared iteration-state machine of iter.rs (forward or reverse stepping) or a
dictionary-view iterator built on it — every later advancement reports
exhaustion (StopIteration) and the state, hence the status, never changes
back to Active, no matter what the element-fetching function would return. -/
theorem claim_C7_exhausted_permanent {T R E K V R2 : Type}
    (f : T → Nat → Except E (PyIterReturn R))
    (self : PositionIterInternal T)
    (hex : self.status = IterStatus.Exhausted)
    (resultFn : K → V → R2) (it : DictViewIter K V)
    (hex2 : it.internal.status = IterStatus.Exhausted) :
    (internalNext f self = (Except.ok (PyIterReturn.StopIteration none), self) ∧
     internalRevNext f self = (Except.ok (PyIterReturn.StopIteration none), self) ∧
     ∀ n : Nat, internalNextN f n self = self) ∧
    (dictViewNext resultFn it = (Except.ok (PyIterReturn.StopIteration none), it) ∧
     dictViewRevNext resultFn it = (Except.ok (PyIterReturn.StopIteration none), it)) := by
  have h1 : internalNext f self = (Except.ok (PyIterReturn.StopIteration none), self) := by
    simp [internalNext, internalStep, hex]
  refine ⟨⟨h1, ?_, ?_⟩, ?_, ?_⟩
  · simp [internalRevNext, internalStep, hex]
  · intro n
    induction n with
    | zero => rfl
    | succ m ih =>
        show internalNextN f m (internalNext f self).2 = self
        rw [h1]
        exact ih
  · simp [dictViewNext, hex2]
  · simp [dictViewRevNext, hex2]

/-- Claim C3: the missing-key hook is invoked by item access exactly when the
entry lookup misses and a hook exists, and before any key error is raised (a
key error arises only when no hook exists); `get` never consults the hook —
its result is independent of the hook and, on a miss, is the supplied default
or the none value. -/
theorem claim_C3_missing_hook {K V : Type} [DecidableEq K]
    (d : DictWithHook K V) (k : K) :
    (∀ v : V, d.dict.get k = some v → inner_getitem d k = Except.ok v) ∧
    (d.dict.get k = none →
      (∀ hook : K → Except (PyErr K) V, d.missingHook = some hook →
        inner_getitem d k = hook k) ∧
      (d.missingHook = none → inner_getitem d k = Except.error (PyErr.keyError k))) ∧
    (∀ (default : Option V) (noneVal : V)
        (hook hook2 : Option (K → Except (PyErr K) V)),
      dict_get ⟨d.dict, hook⟩ k default noneVal =
        dict_get ⟨d.dict, hook2⟩ k default noneVal) ∧
    (∀ (default : Option V) (noneVal : V), d.dict.get k = none →
      dict_get d k default noneVal = default.getD noneVal) := by
  refine ⟨?_, ?_, ?_, ?_⟩
  · intro v hv
    simp [inner_getitem, hv]
  · intro hmiss
    constructor
    · intro hook hhook
      simp [inner_getitem, hmiss, hhook]
    · intro hnone
      simp [inner_getitem, hmiss, hnone]
  · intro default noneVal hook hook2
    rfl
  · intro default noneVal hmiss
    simp [dict_get, hmiss]

/-- Witness for claim C3 at a concrete dictionary with a hook installed. -/
theorem claim_C3_witness :
    (⟨[((1 : Nat), (10 : Nat))], 1⟩ : Dict Nat Nat).get 1 = some 10 ∧
    inner_getitem
        (⟨⟨[(1, 10)], 1⟩, some (fun j => Except.ok (j + 100))⟩ : DictWithHook Nat Nat)
        1 = Except.ok 10 ∧
    dict_get
        (⟨⟨[(1, 10)], 1⟩, some (fun j => Except.ok (j + 100))⟩ : DictWithHook Nat Nat)
        2 none 0 = 0 := by
  have h1 := (claim_C3_missing_hook
    (⟨⟨[(1, 10)], 1⟩, some (fun j => Except.ok (j + 100))⟩ : DictWithHook Nat Nat)
    1).1 10 (by decide)
  have h2 := (claim_C3_missing_hook
    (⟨⟨[(1, 10)], 1⟩, some (fun j => Except.ok (j + 100))⟩ : DictWithHook Nat Nat)
    2).2.2.2 none 0 (by decide)
  exact ⟨by decide, h1, h2⟩

/-- Claim C9: the items-view membership test answers `false`, without raising,
for any needle that is not a tuple or is a tuple of length other than two; for
a pair needle (k, v) it answers, again without raising, exactly whether the
dictionary holds k with a stored value identical to or value-equal to v. -/
theorem claim_C9_items_contains {O : Type} [DecidableEq O] (valueEq : O → O → Bool)
    (d : DictWithHook O O) (needle : DictNeedle O) :
    (needle = DictNeedle.nonTuple →
      dictItemsContains valueEq d needle = Except.ok false) ∧
    (∀ elems : List O, needle = DictNeedle.tuple elems → elems.length ≠ 2 →
      dictItemsContains valueEq d needle = Except.ok false) ∧
    (∀ k v : O, needle = DictNeedle.tuple [k, v] →
      dictItemsContains valueEq d needle =
        Except.ok (match d.dict.get k with
          | some found => decide (found = v) || valueEq found v
          | none => false)) := by
  refine ⟨?_, ?_, ?_⟩
  · intro h
    subst h
    rfl
  · intro elems h hlen
    subst h
    match elems with
    | [] => rfl
    | [_] => rfl
    | [_, _] => simp at hlen
    | _ :: _ :: _ :: _ => rfl
  · intro k v h
    subst h
    cases hget : d.dict.get k with
    | some found =>
        have hc : d.dict.contains k = true := by
          simp [Dict.contains, hget]
        simp [dictItemsContains, hc, inner_getitem, hget]
    | none =>
        have hc : d.dict.contains k = false := by
          simp [Dict.contains, hget]
        simp [dictItemsContains, hc]

/-- Witness for claim C9 at a concrete dictionary and pair needle. -/
theorem claim_C9_witness :
    dictItemsContains (fun a b => a == b)
        (⟨⟨[((1 : Nat), (10 : Nat))], 1⟩, none⟩ : DictWithHook Nat Nat)
        (DictNeedle.tuple [1, 10]) = Except.ok true ∧
    dictItemsContains (fun a b => a == b)
        (⟨⟨[((1 : Nat), (10 : Nat))], 1⟩, none⟩ : DictWithHook Nat Nat)
        (DictNeedle.tuple [1, 10, 99]) = Except.ok false := by
  have h1 := (claim_C9_items_contains (fun a b => a == b)
    (⟨⟨[(1, 10)], 1⟩, none⟩ : DictWithHook Nat Nat)
    (DictNeedle.tuple [1, 10])).2.2 1 10 rfl
  have h2 := (claim_C9_items_contains (fun a b => a == b)
    (⟨⟨[(1, 10)], 1⟩, none⟩ : DictWithHook Nat Nat)
    (DictNeedle.tuple [1, 10, 99])).2.1 [1, 10, 99] rfl (by decide)
  exact ⟨by rw [h1]; rfl, h2⟩

/-- Witness for claim C7 at concrete exhausted iterator states. -/
theorem claim_C7_witness :
    internalNext
        (fun (t : Nat) (n : Nat) =>
          (Except.ok (PyIterReturn.Return (t + n)) : Except String (PyIterReturn Nat)))
        (⟨IterStatus.Exhausted, 3⟩ : PositionIterInternal Nat) =
      (Except.ok (PyIterReturn.StopIteration none), ⟨IterStatus.Exhausted, 3⟩) ∧
    dictViewNext (fun (k : Nat) (_ : Nat) => k)
        (⟨⟨2, 2⟩, ⟨IterStatus.Exhausted, 5⟩⟩ : DictViewIter Nat Nat) =
      (Except.ok (PyIterReturn.StopIteration none), ⟨⟨2, 2⟩, ⟨IterStatus.Exhausted, 5⟩⟩) := by
  have h := claim_C7_exhausted_permanent
    (fun (t : Nat) (n : Nat) =>
      (Except.ok (PyIterReturn.Return (t + n)) : Except String (PyIterReturn Nat)))
    (⟨IterStatus.Exhausted, 3⟩ : PositionIterInternal Nat) rfl
    (fun (k : Nat) (_ : Nat) => k)
    (⟨⟨2, 2⟩, ⟨IterStatus.Exhausted, 5⟩⟩ : DictViewIter Nat Nat) rfl
  exact ⟨h.1.1, h.2.1⟩

/-- Claim C6: each step of an active callable-sentinel iterator invokes the
wrapped callable; a result value-equal to the sentinel permanently exhausts
the iterator — every later step reports StopIteration with the state
(including the invocation count) unchanged, so the callable is never
re-invoked; any other result is yielded. -/
theorem claim_C6_callable_sentinel {V : Type} (eqFn : V → V → Bool)
    (it : PyCallableIterator V) (c : Nat → V)
    (hact : it.status = IterStatus.Active c) :
    (eqFn (c it.calls) it.sentinel = true →
      callableIterNext eqFn it =
        (PyIterReturn.StopIteration none,
         { it with status := IterStatus.Exhausted, calls := it.calls + 1 })) ∧
    (eqFn (c it.calls) it.sentinel = false →
      callableIterNext eqFn it =
        (PyIterReturn.Return (c it.calls), { it with calls := it.calls + 1 })) ∧
    (∀ itx : PyCallableIterator V, itx.status = IterStatus.Exhausted →
      callableIterNext eqFn itx = (PyIterReturn.StopIteration none, itx) ∧
      ∀ n : Nat, callableIterNextN eqFn n itx = itx) := by
  have habs : ∀ itx : PyCallableIterator V, itx.status = IterStatus.Exhausted →
      callableIterNext eqFn itx = (PyIterReturn.StopIteration none, itx) := by
    intro itx hx
    simp [callableIterNext, hx]
  refine ⟨?_, ?_, ?_⟩
  · intro hsent
    simp [callableIterNext, hact, hsent]
  · intro hsent
    simp [callableIterNext, hact, hsent]
  · intro itx hx
    refine ⟨habs itx hx, ?_⟩
    intro n
    induction n with
    | zero => rfl
    | succ m ih =>
        show callableIterNextN eqFn m (callableIterNext eqFn itx).2 = itx
        rw [habs itx hx]
        exact ih

/-- Witness for claim C6: a counter callable with sentinel 0 exhausts on the
first step. -/
theorem claim_C6_witness :
    callableIterNext (fun a b => a == b)
        (⟨0, IterStatus.Active (fun n => n), 0⟩ : PyCallableIterator Nat) =
      (PyIterReturn.StopIteration none,
       ⟨0, IterStatus.Exhausted, 1⟩) :=
  (claim_C6_callable_sentinel (fun a b => a == b)
    (⟨0, IterStatus.Active (fun n => n), 0⟩ : PyCallableIterator Nat)
    (fun n => n) rfl).1 rfl

/-- The running maximum is at least its starting value. -/
theorem foldl_max_init_le (l : List Nat) (a : Nat) : a ≤ l.foldl max a := by
  induction l generalizing a with
  | nil => exact Nat.le_refl a
  | cons x xs ih =>
      simp only [List.foldl_cons]
      exact Nat.le_trans (le_max_left a x) (ih (max a x))

/-- Every member of the list is bounded by the running maximum. -/
theorem foldl_max_mem_le (l : List Nat) (a : Nat) : ∀ x ∈ l, x ≤ l.foldl max a := by
  induction l generalizing a with
  | nil => intro x hx; simp at hx
  | cons y ys ih =>
      intro x hx
      simp only [List.foldl_cons]
      rcases List.mem_cons.mp hx with h | h
      · subst h
        exact Nat.le_trans (le_max_right a x) (foldl_max_init_le ys (max a x))
      · exact ih (max a y) x h

/-- The running maximum is the starting value or a member of the list. -/
theorem foldl_max_eq_or_mem (l : List Nat) (a : Nat) :
    l.foldl max a = a ∨ l.foldl max a ∈ l := by
  induction l generalizing a with
  | nil => left; rfl
  | cons y ys ih =>
      simp only [List.foldl_cons]
      rcases ih (max a y) with h | h
      · rcases max_choice a y with hm | hm
        · left; rw [h, hm]
        · right; rw [h, hm]; exact List.mem_cons_self y ys
      · right; exact List.mem_cons_of_mem y h

/-- Claim C5: the mapping iterator's length hint is the maximum of the
sources' individual length hints (an upper bound of all of them that is
itself one of them), not the minimum: over hints 3 and 5 it is 5, even though
iteration over sources of lengths 3 and 5 with a pass-through transform stops
after 3 elements. -/
theorem claim_C5_map_length_hint (hints : List Nat) (hne : hints ≠ []) :
    (∀ x ∈ hints, x ≤ pyMapLengthHint hints) ∧
    pyMapLengthHint hints ∈ hints ∧
    pyMapLengthHint [3, 5] = 5 ∧
    ((pyMapNext (fun _ vals => StepOut.Yield vals)
        (⟨[[1, 2, 3], [4, 5, 6, 7, 8]], 0⟩ : MapState Nat (List Nat))).1 =
      StepOut.Yield [1, 4] ∧
     (pyMapNext (fun _ vals => StepOut.Yield vals)
        (pyMapNextN (fun _ vals => StepOut.Yield vals) 1
          (⟨[[1, 2, 3], [4, 5, 6, 7, 8]], 0⟩ : MapState Nat (List Nat)))).1 =
      StepOut.Yield [2, 5] ∧
     (pyMapNext (fun _ vals => StepOut.Yield vals)
        (pyMapNextN (fun _ vals => StepOut.Yield vals) 2
          (⟨[[1, 2, 3], [4, 5, 6, 7, 8]], 0⟩ : MapState Nat (List Nat)))).1 =
      StepOut.Yield [3, 6] ∧
     (pyMapNext (fun _ vals => StepOut.Yield vals)
        (pyMapNextN (fun _ vals => StepOut.Yield vals) 3
          (⟨[[1, 2, 3], [4, 5, 6, 7, 8]], 0⟩ : MapState Nat (List Nat)))).1 =
      StepOut.Stop) := by
  refine ⟨foldl_max_mem_le hints 0, ?_, rfl, rfl, rfl, rfl, rfl⟩
  rcases foldl_max_eq_or_mem hints 0 with h | h
  · rcases List.exists_cons_of_ne_nil hne with ⟨z, zs, hl⟩
    have hz : z ≤ hints.foldl max 0 := by
      apply foldl_max_mem_le
      rw [hl]
      exact List.mem_cons_self z zs
    rw [h] at hz
    have hz0 : z = 0 := Nat.le_zero.mp hz
    have : pyMapLengthHint hints = z := by
      rw [pyMapLengthHint, h, hz0]
    rw [this, hl]
    exact List.mem_cons_self z zs
  · exact h

/-- Witness for claim C5 at the concrete hint lists of the claim. -/
theorem claim_C5_witness :
    pyMapLengthHint [3, 5] = 5 ∧ pyMapLengthHint [3, 5] ∈ [3, 5] :=
  ⟨(claim_C5_map_length_hint [3, 5] (by decide)).2.2.1,
   (claim_C5_map_length_hint [3, 5] (by decide)).2.1⟩

/-- Claim C10: a mapping iterator may have zero sources; every step then
invokes the transform with zero collected values and yields the transform's
own outcome — the step never reports exhaustion on account of the (empty)
source list, so only the transform itself (by raising, including raising
StopIteration) terminates the iteration. -/
theorem claim_C10_zero_sources {A B : Type} (mapper : Nat → List A → StepOut B)
    (s : MapState A B) (hempty : s.sources = []) :
    pyMapNext mapper s = (mapper s.calls [], ⟨[], s.calls + 1⟩) ∧
    (∀ n ccount : Nat,
      pyMapNextN mapper n (⟨[], ccount⟩ : MapState A B) = ⟨[], ccount + n⟩) ∧
    (∀ n : Nat,
      (pyMapNext mapper (pyMapNextN mapper n (⟨[], 0⟩ : MapState A B))).1 =
        mapper n []) := by
  have hN : ∀ n ccount : Nat,
      pyMapNextN mapper n (⟨[], ccount⟩ : MapState A B) = ⟨[], ccount + n⟩ := by
    intro n
    induction n with
    | zero => intro ccount; rfl
    | succ m ih =>
        intro ccount
        show pyMapNextN mapper m (pyMapNext mapper ⟨[], ccount⟩).2 = _
        have hstep : (pyMapNext mapper (⟨[], ccount⟩ : MapState A B)).2 =
            ⟨[], ccount + 1⟩ := rfl
        rw [hstep, ih (ccount + 1)]
        congr 1
        omega
  refine ⟨?_, hN, ?_⟩
  · cases s with
    | mk src cc =>
        simp only at hempty
        subst hempty
        rfl
  · intro n
    rw [hN n 0]
    show mapper (0 + n) [] = mapper n []
    rw [Nat.zero_add]

/-- Witness for claim C10: the zero-source mapping iterator yields the
transform's outcome on its first step. -/
theorem claim_C10_witness :
    pyMapNext (fun n (_ : List Nat) => StepOut.Yield n) (⟨[], 0⟩ : MapState Nat Nat) =
      (StepOut.Yield 0, ⟨[], 1⟩) :=
  (claim_C10_zero_sources (fun n (_ : List Nat) => StepOut.Yield n) ⟨[], 0⟩ rfl).1

/-- Claim C2: `replace` gives every overridden field the supplied value and
every other field the receiver's value; the qualified name, max stack depth,
instructions, locations, cell/free-variable tables and cell-to-arg mapping
are always copied verbatim; `replace(co_name=x)` changes only the name, and
`replace()` with no arguments reproduces every field of the original. The
receiver is a pure input and is never mutated. The two hypotheses record that
the flags fields are 16-bit values, as they are in the source
(`u16`). Observable line numbers go through the `co_firstlineno` getter, as a
supplied first-line number of zero is stored as an absent line. -/
theorem claim_C2_replace {C : Type} (c : CodeObject C) (args : ReplaceArgs C)
    (hc : c.flags < 65536)
    (hargs : ∀ fl : Nat, args.co_flags = some fl → fl < 65536) :
    ((code_replace c args).posonlyarg_count =
        args.co_posonlyargcount.getD c.posonlyarg_count ∧
     (code_replace c args).arg_count = args.co_argcount.getD c.arg_count ∧
     (code_replace c args).kwonlyarg_count =
        args.co_kwonlyargcount.getD c.kwonlyarg_count ∧
     (code_replace c args).source_path = args.co_filename.getD c.source_path ∧
     co_firstlineno (code_replace c args) =
        args.co_firstlineno.getD (co_firstlineno c) ∧
     (code_replace c args).constants = args.co_consts.getD c.constants ∧
     (code_replace c args).obj_name = args.co_name.getD c.obj_name ∧
     (code_replace c args).names = args.co_names.getD c.names ∧
     (code_replace c args).flags = args.co_flags.getD c.flags ∧
     (code_replace c args).varnames = args.co_varnames.getD c.varnames) ∧
    ((code_replace c args).qualname = c.qualname ∧
     (code_replace c args).max_stackdepth = c.max_stackdepth ∧
     (code_replace c args).instructions = c.instructions ∧
     (code_replace c args).locations = c.locations ∧
     (code_replace c args).cellvars = c.cellvars ∧
     (code_replace c args).freevars = c.freevars ∧
     (code_replace c args).cell2arg = c.cell2arg) ∧
    code_replace c emptyReplaceArgs = c ∧
    (∀ x : String,
      code_replace c { emptyReplaceArgs with co_name := some x } =
        { c with obj_name := x }) := by
  have hflags : (code_replace c args).flags = args.co_flags.getD c.flags := by
    cases hf : args.co_flags with
    | none =>
        simp [code_replace, hf, codeFlagsFromBitsTruncate, Nat.mod_eq_of_lt hc]
    | some fl =>
        simp [code_replace, hf, codeFlagsFromBitsTruncate,
          Nat.mod_eq_of_lt (hargs fl hf)]
  have hline : co_firstlineno (code_replace c args) =
      args.co_firstlineno.getD (co_firstlineno c) := by
    cases hf : args.co_firstlineno with
    | none => simp [code_replace, co_firstlineno, hf]
    | some n =>
        cases n with
        | zero => simp [code_replace, co_firstlineno, hf, oneIndexedNew]
        | succ m => simp [code_replace, co_firstlineno, hf, oneIndexedNew]
  refine ⟨⟨rfl, rfl, rfl, rfl, hline, rfl, rfl, rfl, hflags, rfl⟩,
    ⟨rfl, rfl, rfl, rfl, rfl, rfl, rfl⟩, ?_, ?_⟩
  · cases c with
    | mk f1 f2 f3 f4 f5 f6 f7 f8 f9 f10 f11 f12 f13 f14 f15 f16 f17 =>
        simp only at hc
        simp [code_replace, emptyReplaceArgs, codeFlagsFromBitsTruncate,
          Nat.mod_eq_of_lt hc]
  · intro x
    cases c with
    | mk f1 f2 f3 f4 f5 f6 f7 f8 f9 f10 f11 f12 f13 f14 f15 f16 f17 =>
        simp only at hc
        simp [code_replace, emptyReplaceArgs, codeFlagsFromBitsTruncate,
          Nat.mod_eq_of_lt hc]

/-- Witness for claim C2: a concrete code object where `replace()` with no
arguments reproduces the original and `replace(co_name := "g")` changes only
the name. -/
theorem claim_C2_witness :
    (0 : Nat) < 65536 ∧
    code_replace
        (⟨0, 1, 2, 3, "m.py", some 4, "f", "outer.f", 5, [6, 7], [8],
          ([9] : List Nat), ["n"], ["v"], ["cv"], ["fv"], some [0]⟩ : CodeObject Nat)
        emptyReplaceArgs =
      ⟨0, 1, 2, 3, "m.py", some 4, "f", "outer.f", 5, [6, 7], [8],
        [9], ["n"], ["v"], ["cv"], ["fv"], some [0]⟩ ∧
    code_replace
        (⟨0, 1, 2, 3, "m.py", some 4, "f", "outer.f", 5, [6, 7], [8],
          ([9] : List Nat), ["n"], ["v"], ["cv"], ["fv"], some [0]⟩ : CodeObject Nat)
        { emptyReplaceArgs with co_name := some "g" } =
      ⟨0, 1, 2, 3, "m.py", some 4, "g", "outer.f", 5, [6, 7], [8],
        [9], ["n"], ["v"], ["cv"], ["fv"], some [0]⟩ := by
  have h := claim_C2_replace
    (⟨0, 1, 2, 3, "m.py", some 4, "f", "outer.f", 5, [6, 7], [8],
      ([9] : List Nat), ["n"], ["v"], ["cv"], ["fv"], some [0]⟩ : CodeObject Nat)
    emptyReplaceArgs (by decide) (fun fl hf => nomatch hf)
  exact ⟨by decide, h.2.2.1, h.2.2.2 "g"⟩

/-- Counterexample for claim C8: on a concrete code object the rendered
descriptor does not contain a comma between the identity and the word `file`,
so it differs from the claimed format. -/
theorem claim_C8_counterexample :
    code_repr_str
        (⟨0, 0, 0, 0, "a.py", some 1, "f", "f", 0, [], [], ([] : List Nat),
          [], [], [], [], none⟩ : CodeObject Nat) 16 ≠
      specClaimedDescriptor
        (⟨0, 0, 0, 0, "a.py", some 1, "f", "f", 0, [], [], ([] : List Nat),
          [], [], [], [], none⟩ : CodeObject Nat) 16 := by
  decide

/-- Claim C8 as amended: the rendered descriptor is exactly
`<code object NAME at IDENTITY file QUOTEDPATH, line LINE>` — no comma
between the identity and `file` — where the identity is the address in
0x-prefixed hexadecimal, the path is repr-quoted and the line is the first
line number or -1 when absent. -/
theorem claim_C8_repr_amended {C : Type} (c : CodeObject C) (id : Nat) :
    code_repr_str c id = specAmendedDescriptor c id := rfl

end RPy
